import Mathlib

/-!
Shallow embedding of the qd-cgns-rs wrapper (src/lib.rs) around the CGNS
native library.  Host strings are modelled as UTF-8 byte lists, the native
library as an explicit environment of response functions, and each wrapper
operation as a function returning the sequence of lock/native-call events it
performs together with its outcome (a value, an error, or a panic).
-/

namespace Cgns

/-- Outcome of running a piece of Rust code that may panic (unwrap/assert). -/
inductive Panics (α : Type) where
  | panic : Panics α
  | value : α → Panics α
deriving DecidableEq, Repr

/-- Mirror of `pub struct Error(i32)`: wraps the raw native status code. -/
structure Error where
  code : Int
deriving DecidableEq, Repr

/-- Mirror of the crate's `Result<T> = std::result::Result<T, Error>`. -/
inductive CgResult (α : Type) where
  | ok : α → CgResult α
  | err : Error → CgResult α
deriving DecidableEq, Repr

/-- Mirror of `pub enum Mode`. -/
inductive Mode where
  | Read : Mode
  | Write : Mode
  | Modify : Mode
deriving DecidableEq, Repr

/-- Mirror of `pub struct File(i32)`. -/
structure File where
  fd : Int
deriving DecidableEq, Repr

/-- Mirror of `pub struct Base(i32)`. -/
structure Base where
  idx : Int
deriving DecidableEq, Repr

/-- Mirror of `pub struct Zone(i32)`. -/
structure Zone where
  idx : Int
deriving DecidableEq, Repr

/-- Native mode constant `CG_MODE_READ` (value from the CGNS headers via cgns-sys). -/
def CG_MODE_READ : Int := 0

/-- Native mode constant `CG_MODE_WRITE` (value from the CGNS headers via cgns-sys). -/
def CG_MODE_WRITE : Int := 1

/-- Native mode constant `CG_MODE_MODIFY` (value from the CGNS headers via cgns-sys). -/
def CG_MODE_MODIFY : Int := 2

/-- Native zone-topology constant `ZoneType_t::Unstructured` (value from the CGNS headers). -/
def Unstructured : Int := 3

/-- Native data-type tag `DataType_t::Integer` (value from the CGNS headers). -/
def IntegerTag : Int := 2

/-- Native data-type tag `DataType_t::RealDouble` (value from the CGNS headers). -/
def RealDouble : Int := 4

/-- Mirror of `impl From<Mode> for i32`. -/
def modeToI32 : Mode → Int
  | Mode.Read => CG_MODE_READ
  | Mode.Write => CG_MODE_WRITE
  | Mode.Modify => CG_MODE_MODIFY

/-- Two's-complement wrap of an integer into the `i32` range, the semantics of
Rust's `as i32` cast and of release-mode `i32` arithmetic. -/
def wrap32 (n : Int) : Int := (n + 2 ^ 31) % 2 ^ 32 - 2 ^ 31

/-- Wrapping `i32` multiplication, the semantics of `a * v` on `i32`. -/
def wmul (a b : Int) : Int := wrap32 (a * b)

/-- Mirror of `dimensions.iter().copied().reduce(|a, v| a * v)`: `none` on an
empty list, otherwise the left fold of wrapping multiplication seeded with the
first element. -/
def reduceProd : List Int → Option Int
  | [] => none
  | d :: t => some (t.foldl wmul d)

/-- One native call as recorded in an operation's event trace. -/
inductive NativeCall where
  | nOpen (path : List UInt8) (mode : Int)
  | nClose (fd : Int)
  | nBaseWrite (fd : Int) (name : List UInt8) (cellDim physDim : Int)
  | nZoneWrite (fd base : Int) (name : List UInt8) (size : List Int) (zonetype : Int)
  | nZoneRead (fd base zone : Int)
  | nCoordWrite (fd base zone : Int) (dtype : Int) (name : List UInt8)
  | nCoordInfo (fd base zone c : Int)
  | nCoordRead (fd base zone : Int) (name : List UInt8) (dtype rmin rmax : Int)
  | nElementsRead (fd base zone sectionIdx : Int) (parentNull : Bool)
  | nBiterWrite (fd base : Int) (name : List UInt8) (nsteps : Int)
  | nZiterWrite (fd base zone : Int) (name : List UInt8)
  | nSectionWrite (fd base zone : Int) (name : List UInt8) (typ start end_ nbndry : Int)
      (elements : List Int)
  | nGolist (fd base : Int) (labels : List (List UInt8)) (index : List Int)
  | nArrayWrite (name : List UInt8) (dtype ndims : Int) (dims : List Int)
  | nGetError
deriving DecidableEq, Repr

/-- An event in an operation's trace: acquiring or releasing `CGNS_MUTEX`,
or performing one call into the native library. -/
inductive Event where
  | lockAcquire : Event
  | lockRelease : Event
  | call : NativeCall → Event
deriving DecidableEq, Repr

/-- Checks that, starting from lock-nesting depth `d`, every native call in the
trace happens while the lock is held (depth positive). -/
def callsUnderLock : Nat → List Event → Bool
  | _, [] => true
  | d, Event.lockAcquire :: t => callsUnderLock (d + 1) t
  | d, Event.lockRelease :: t => callsUnderLock (d - 1) t
  | d, Event.call _ :: t => decide (0 < d) && callsUnderLock d t

/-- True exactly for native-call events. -/
def isCall : Event → Bool
  | Event.call _ => true
  | _ => false

/-- True when the trace performs no native call at all. -/
def noCalls (tr : List Event) : Bool :=
  tr.all fun e => !(isCall e)

/-- Number of native close calls in a trace. -/
def countCloseCalls (tr : List Event) : Nat :=
  tr.countP fun e =>
    match e with
    | Event.call (NativeCall.nClose _) => true
    | _ => false

/-- The native library, abstracted as response functions for each primitive the
wrapper uses.  Out-parameters are returned alongside the integer status. -/
structure Env where
  cgOpen : List UInt8 → Int → Int × Int
  cgClose : Int → Int
  cgBaseWrite : Int → List UInt8 → Int → Int → Int × Int
  cgZoneWrite : Int → Int → List UInt8 → List Int → Int → Int × Int
  cgZoneRead : Int → Int → Int → Int × List UInt8 × List Int
  cgCoordWrite : Int → Int → Int → Int → List UInt8 → Int
  cgCoordInfo : Int → Int → Int → Int → Int × Int × List UInt8
  cgCoordRead : Int → Int → Int → List UInt8 → Int → Int → Int → Int
  cgElementsRead : Int → Int → Int → Int → Bool → Int
  cgBiterWrite : Int → Int → List UInt8 → Int → Int
  cgZiterWrite : Int → Int → Int → List UInt8 → Int
  cgSectionWrite : Int → Int → Int → List UInt8 → Int → Int → Int → Int → List Int → Int
  cgGolist : Int → Int → List (List UInt8) → List Int → Int
  cgArrayWrite : List UInt8 → Int → Int → List Int → Int
  getError : List UInt8

/-- Position of the first null byte, mirror of
`buf.iter().position(|&r| r == 0)`. -/
def firstNulPos : List UInt8 → Option Nat
  | [] => none
  | b :: t => if b = 0 then some 0 else (firstNulPos t).map fun n => n + 1

/-- True for a continuation byte `0x80..=0xBF`. -/
def utf8Cont (b : UInt8) : Bool := 0x80 ≤ b && b ≤ 0xBF

/-- UTF-8 validity of a byte list, as checked by `CStr::to_str`. -/
def utf8Valid : List UInt8 → Bool
  | [] => true
  | b :: rest =>
    if b ≤ 0x7F then utf8Valid rest
    else if 0xC2 ≤ b && b ≤ 0xDF then
      match rest with
      | c1 :: r => utf8Cont c1 && utf8Valid r
      | [] => false
    else if b = 0xE0 then
      match rest with
      | c1 :: c2 :: r => (0xA0 ≤ c1 && c1 ≤ 0xBF) && utf8Cont c2 && utf8Valid r
      | _ => false
    else if (0xE1 ≤ b && b ≤ 0xEC) || b = 0xEE || b = 0xEF then
      match rest with
      | c1 :: c2 :: r => utf8Cont c1 && utf8Cont c2 && utf8Valid r
      | _ => false
    else if b = 0xED then
      match rest with
      | c1 :: c2 :: r => (0x80 ≤ c1 && c1 ≤ 0x9F) && utf8Cont c2 && utf8Valid r
      | _ => false
    else if b = 0xF0 then
      match rest with
      | c1 :: c2 :: c3 :: r => (0x90 ≤ c1 && c1 ≤ 0xBF) && utf8Cont c2 && utf8Cont c3 && utf8Valid r
      | _ => false
    else if 0xF1 ≤ b && b ≤ 0xF3 then
      match rest with
      | c1 :: c2 :: c3 :: r => utf8Cont c1 && utf8Cont c2 && utf8Cont c3 && utf8Valid r
      | _ => false
    else if b = 0xF4 then
      match rest with
      | c1 :: c2 :: c3 :: r => (0x80 ≤ c1 && c1 ≤ 0x8F) && utf8Cont c2 && utf8Cont c3 && utf8Valid r
      | _ => false
    else false

/-- Mirror of `CStr::from_bytes_with_nul`: succeeds when the byte list is
nonempty, ends with a null byte and has no interior null byte, yielding the
content without the terminator. -/
def from_bytes_with_nul (bs : List UInt8) : Option (List UInt8) :=
  if bs.getLast? = some 0 ∧ 0 ∉ bs.dropLast then some bs.dropLast else none

/-- Mirror of `CStr::to_str`: succeeds exactly on valid UTF-8. -/
def cstr_to_str (bs : List UInt8) : Option (List UInt8) :=
  if utf8Valid bs then some bs else none

/-- Mirror of `raw_to_string`: find the first null byte (unwrap panics when
there is none), slice up to and including it, convert through
`CStr::from_bytes_with_nul` and `to_str` (each unwrap panicking on failure). -/
def raw_to_string (buf : List UInt8) : Panics (List UInt8) :=
  match firstNulPos buf with
  | none => Panics.panic
  | some p =>
    match from_bytes_with_nul (buf.take (p + 1)) with
    | none => Panics.panic
    | some content =>
      match cstr_to_str content with
      | none => Panics.panic
      | some s => Panics.value s

/-- Statement of the amended decoding behaviour in the spec's own terms:
scan for the first null byte; with none, panic; otherwise return the bytes
before it when they are valid UTF-8 and panic when they are not. -/
def raw_to_string_model (buf : List UInt8) : Panics (List UInt8) :=
  match firstNulPos buf with
  | none => Panics.panic
  | some p => if utf8Valid (buf.take p) then Panics.value (buf.take p) else Panics.panic

/-- A Rust `Vec`: a backing buffer plus the initialized length.  The visible
content is the first `len` elements; `Vec::with_capacity` yields length 0 and
writing through `as_mut_ptr` fills the buffer without changing the length. -/
structure RustVec (α : Type) where
  buf : List α
  len : Nat
deriving DecidableEq, Repr

/-- The elements a Rust `Vec` actually exposes. -/
def RustVec.toList {α : Type} (v : RustVec α) : List α := v.buf.take v.len

/-- Mirror of `pub fn open`: lock, `CString::new(path).unwrap()` (panicking on
an embedded null byte, the unwinding drop releasing the lock), native
`cg_open`, then `Ok(File(fd))` on status 0 and `Err(status)` otherwise. -/
def openFile (env : Env) (path : List UInt8) (mode : Mode) :
    List Event × Panics (CgResult File) :=
  if 0 ∈ path then
    ([Event.lockAcquire, Event.lockRelease], Panics.panic)
  else
    let r := env.cgOpen path (modeToI32 mode)
    ([Event.lockAcquire, Event.call (NativeCall.nOpen path (modeToI32 mode)),
      Event.lockRelease],
     Panics.value (if r.1 = 0 then CgResult.ok (File.mk r.2) else CgResult.err (Error.mk r.1)))

/-- Mirror of `File::close`: lock, native `cg_close`, status translation. -/
def close (env : Env) (fd : Int) : List Event × Panics (CgResult Unit) :=
  let st := env.cgClose fd
  ([Event.lockAcquire, Event.call (NativeCall.nClose fd), Event.lockRelease],
   Panics.value (if st = 0 then CgResult.ok () else CgResult.err (Error.mk st)))

/-- Mirror of `impl Drop for File`: `self.close().unwrap()`, so a close error
during drop panics. -/
def dropFile (env : Env) (fd : Int) : List Event × Panics Unit :=
  let r := close env fd
  (r.1,
   match r.2 with
   | Panics.panic => Panics.panic
   | Panics.value (CgResult.ok _) => Panics.value ()
   | Panics.value (CgResult.err _) => Panics.panic)

/-- Events of the execution path that calls `File::close` explicitly and then
lets the `File` go out of scope, running `Drop`. -/
def closeThenDrop (env : Env) (fd : Int) : List Event :=
  (close env fd).1 ++ (dropFile env fd).1

/-- Mirror of `File::base_write`: lock, marshal the name (panic on an embedded
null byte), native `cg_base_write`, status translation. -/
def base_write (env : Env) (fd : Int) (basename : List UInt8) (cell_dim phys_dim : Int) :
    List Event × Panics (CgResult Base) :=
  if 0 ∈ basename then
    ([Event.lockAcquire, Event.lockRelease], Panics.panic)
  else
    let r := env.cgBaseWrite fd basename cell_dim phys_dim
    ([Event.lockAcquire, Event.call (NativeCall.nBaseWrite fd basename cell_dim phys_dim),
      Event.lockRelease],
     Panics.value (if r.1 = 0 then CgResult.ok (Base.mk r.2) else CgResult.err (Error.mk r.1)))

/-- Mirror of `File::zone_write`: lock, marshal the name, build the size array
`[vertex_size, cell_size, boundary_size]`, native `cg_zone_write` with the
`Unstructured` topology, status translation. -/
def zone_write (env : Env) (fd base : Int) (zonename : List UInt8)
    (vertex_size cell_size boundary_size : Int) :
    List Event × Panics (CgResult Zone) :=
  if 0 ∈ zonename then
    ([Event.lockAcquire, Event.lockRelease], Panics.panic)
  else
    let r := env.cgZoneWrite fd base zonename [vertex_size, cell_size, boundary_size] Unstructured
    ([Event.lockAcquire,
      Event.call (NativeCall.nZoneWrite fd base zonename
        [vertex_size, cell_size, boundary_size] Unstructured),
      Event.lockRelease],
     Panics.value (if r.1 = 0 then CgResult.ok (Zone.mk r.2) else CgResult.err (Error.mk r.1)))

/-- Mirror of `File::zone_read`: NO lock acquisition; the size vector is
`Vec::with_capacity(3)`, whose backing buffer the native call fills while its
length stays 0; the name buffer is decoded with `raw_to_string`. -/
def zone_read (env : Env) (fd base zone : Int) :
    List Event × Panics (CgResult (List UInt8 × RustVec Int)) :=
  let r := env.cgZoneRead fd base zone
  let tr := [Event.call (NativeCall.nZoneRead fd base zone)]
  if r.1 = 0 then
    match raw_to_string r.2.1 with
    | Panics.panic => (tr, Panics.panic)
    | Panics.value name => (tr, Panics.value (CgResult.ok (name, RustVec.mk r.2.2 0)))
  else (tr, Panics.value (CgResult.err (Error.mk r.1)))

/-- Mirror of `File::coord_info`: NO lock acquisition; native `cg_coord_info`,
name buffer decoded with `raw_to_string`. -/
def coord_info (env : Env) (fd base zone c : Int) :
    List Event × Panics (CgResult (Int × List UInt8)) :=
  let r := env.cgCoordInfo fd base zone c
  let tr := [Event.call (NativeCall.nCoordInfo fd base zone c)]
  if r.1 = 0 then
    match raw_to_string r.2.2 with
    | Panics.panic => (tr, Panics.panic)
    | Panics.value name => (tr, Panics.value (CgResult.ok (r.2.1, name)))
  else (tr, Panics.value (CgResult.err (Error.mk r.1)))

/-- Mirror of `File::coord_read`: NO lock acquisition; marshal the coordinate
name (panic on an embedded null byte), native `cg_coord_read` with the
`RealDouble` tag, status translation. -/
def coord_read (env : Env) (fd base zone : Int) (coordname : List UInt8)
    (range_min range_max : Int) : List Event × Panics (CgResult Unit) :=
  if 0 ∈ coordname then ([], Panics.panic)
  else
    let st := env.cgCoordRead fd base zone coordname RealDouble range_min range_max
    ([Event.call (NativeCall.nCoordRead fd base zone coordname RealDouble range_min range_max)],
     Panics.value (if st = 0 then CgResult.ok () else CgResult.err (Error.mk st)))

/-- Mirror of `File::coord_write`: lock, marshal the name, native
`cg_coord_write` with the `RealDouble` tag, status translation. -/
def coord_write (env : Env) (fd base zone : Int) (coordname : List UInt8) :
    List Event × Panics (CgResult Unit) :=
  if 0 ∈ coordname then
    ([Event.lockAcquire, Event.lockRelease], Panics.panic)
  else
    let st := env.cgCoordWrite fd base zone RealDouble coordname
    ([Event.lockAcquire, Event.call (NativeCall.nCoordWrite fd base zone RealDouble coordname),
      Event.lockRelease],
     Panics.value (if st = 0 then CgResult.ok () else CgResult.err (Error.mk st)))

/-- Mirror of `File::elements_read`: NO lock acquisition; the parent-data
pointer is null exactly when the `parent_data` slice is empty. -/
def elements_read (env : Env) (fd base zone sectionIdx : Int) (parentEmpty : Bool) :
    List Event × Panics (CgResult Unit) :=
  let st := env.cgElementsRead fd base zone sectionIdx parentEmpty
  ([Event.call (NativeCall.nElementsRead fd base zone sectionIdx parentEmpty)],
   Panics.value (if st = 0 then CgResult.ok () else CgResult.err (Error.mk st)))

/-- Mirror of `File::biter_write`: lock, marshal the name, native
`cg_biter_write`, status translation. -/
def biter_write (env : Env) (fd base : Int) (base_iter_name : List UInt8) (n_steps : Int) :
    List Event × Panics (CgResult Unit) :=
  if 0 ∈ base_iter_name then
    ([Event.lockAcquire, Event.lockRelease], Panics.panic)
  else
    let st := env.cgBiterWrite fd base base_iter_name n_steps
    ([Event.lockAcquire, Event.call (NativeCall.nBiterWrite fd base base_iter_name n_steps),
      Event.lockRelease],
     Panics.value (if st = 0 then CgResult.ok () else CgResult.err (Error.mk st)))

/-- Mirror of `File::ziter_write`: lock, marshal the name, native
`cg_ziter_write`, status translation. -/
def ziter_write (env : Env) (fd base zone : Int) (zone_iter_name : List UInt8) :
    List Event × Panics (CgResult Unit) :=
  if 0 ∈ zone_iter_name then
    ([Event.lockAcquire, Event.lockRelease], Panics.panic)
  else
    let st := env.cgZiterWrite fd base zone zone_iter_name
    ([Event.lockAcquire, Event.call (NativeCall.nZiterWrite fd base zone zone_iter_name),
      Event.lockRelease],
     Panics.value (if st = 0 then CgResult.ok () else CgResult.err (Error.mk st)))

/-- Mirror of `SectionInfo`. -/
structure SectionInfo where
  section_name : List UInt8
  typ : Int
  start : Int
  end_ : Int
  nbndry : Int
deriving DecidableEq, Repr

/-- Mirror of `File::section_write`: lock, marshal the section name, native
`cg_section_write`, status translation. -/
def section_write (env : Env) (fd base zone : Int) (args : SectionInfo) (elements : List Int) :
    List Event × Panics (CgResult Unit) :=
  if 0 ∈ args.section_name then
    ([Event.lockAcquire, Event.lockRelease], Panics.panic)
  else
    let st := env.cgSectionWrite fd base zone args.section_name args.typ args.start args.end_
      args.nbndry elements
    ([Event.lockAcquire,
      Event.call (NativeCall.nSectionWrite fd base zone args.section_name args.typ args.start
        args.end_ args.nbndry elements),
      Event.lockRelease],
     Panics.value (if st = 0 then CgResult.ok () else CgResult.err (Error.mk st)))

/-- Mirror of `File::golist`: lock, marshal every label (panic on an embedded
null byte), native `cg_golist`; on status 0 the guard moves into the returned
`GotoContext`, so the lock is NOT released; on failure it is. -/
def golist (env : Env) (fd base : Int) (labels : List (List UInt8)) (index : List Int) :
    List Event × Panics (CgResult Unit) :=
  if ∃ t ∈ labels, 0 ∈ t then
    ([Event.lockAcquire, Event.lockRelease], Panics.panic)
  else
    let st := env.cgGolist fd base labels index
    if st = 0 then
      ([Event.lockAcquire, Event.call (NativeCall.nGolist fd base labels index)],
       Panics.value (CgResult.ok ()))
    else
      ([Event.lockAcquire, Event.call (NativeCall.nGolist fd base labels index),
        Event.lockRelease],
       Panics.value (CgResult.err (Error.mk st)))

/-- Mirror of `GotoContext::array_write` (the lock is already held by the
context): marshal the array name (panic on an embedded null byte), then
`assert_eq!(dimensions.reduce(*).unwrap(), data.len() as i32)` — panicking on
an empty dimension list or on a product/length mismatch — and only then the
native `cg_array_write` with the element type's tag. -/
def array_write (env : Env) (dt : Int) (arrayname : List UInt8) (dimensions : List Int)
    (dataLen : Nat) : List Event × Panics (CgResult Unit) :=
  if 0 ∈ arrayname then ([], Panics.panic)
  else
    match reduceProd dimensions with
    | none => ([], Panics.panic)
    | some p =>
      if p = wrap32 (dataLen : Int) then
        let st := env.cgArrayWrite arrayname dt (wrap32 (dimensions.length : Int)) dimensions
        ([Event.call (NativeCall.nArrayWrite arrayname dt
            (wrap32 (dimensions.length : Int)) dimensions)],
         Panics.value (if st = 0 then CgResult.ok () else CgResult.err (Error.mk st)))
      else ([], Panics.panic)

/-- Mirror of `impl From<i32> for Error`: stores the status code only, with no
native call and no query of the native error message. -/
def errorFromCode (code : Int) : Error := Error.mk code

/-- Mirror of `impl Debug for Error`: calls `cg_get_error` (with no lock
acquisition), converts the message with `to_str().unwrap()` and formats it
together with the stored code. -/
def errorFmt (env : Env) (e : Error) : List Event × Panics (List UInt8 × Int) :=
  ([Event.call NativeCall.nGetError],
   if utf8Valid env.getError then Panics.value (env.getError, e.code) else Panics.panic)

/-- UTF-8 bytes of the name "Zone1". -/
def zone1Name : List UInt8 := [90, 111, 110, 101, 49]

/-- A 64-byte native name buffer holding "Zone1" followed by null bytes. -/
def zone1Buf : List UInt8 := zone1Name ++ List.replicate 59 0

/-- Modelled from the spec: a concrete native environment in which every
primitive succeeds and in which zone reading returns what §8's round-trip
wrote — the name "Zone1" and the sizes `[10, 4, 0]` (the on-disk behaviour of
the external native library is not part of this repository's sources). -/
def env0 : Env where
  cgOpen := fun _ _ => (0, 7)
  cgClose := fun _ => 0
  cgBaseWrite := fun _ _ _ _ => (0, 1)
  cgZoneWrite := fun _ _ _ _ _ => (0, 1)
  cgZoneRead := fun _ _ _ => (0, zone1Buf, [10, 4, 0])
  cgCoordInfo := fun _ _ _ _ => (0, RealDouble, zone1Buf)
  cgCoordWrite := fun _ _ _ _ _ => 0
  cgCoordRead := fun _ _ _ _ _ _ _ => 0
  cgElementsRead := fun _ _ _ _ _ => 0
  cgBiterWrite := fun _ _ _ _ => 0
  cgZiterWrite := fun _ _ _ _ => 0
  cgSectionWrite := fun _ _ _ _ _ _ _ _ _ => 0
  cgGolist := fun _ _ _ _ => 0
  cgArrayWrite := fun _ _ _ _ => 0
  getError := [111, 107]

/-- A concrete native environment in which every primitive fails with a
nonzero status code. -/
def envFail : Env where
  cgOpen := fun _ _ => (7, 0)
  cgClose := fun _ => 8
  cgBaseWrite := fun _ _ _ _ => (7, 0)
  cgZoneWrite := fun _ _ _ _ _ => (7, 0)
  cgZoneRead := fun _ _ _ => (7, [], [])
  cgCoordInfo := fun _ _ _ _ => (7, 0, [])
  cgCoordWrite := fun _ _ _ _ _ => 7
  cgCoordRead := fun _ _ _ _ _ _ _ => 7
  cgElementsRead := fun _ _ _ _ _ => 7
  cgBiterWrite := fun _ _ _ _ => 7
  cgZiterWrite := fun _ _ _ _ => 7
  cgSectionWrite := fun _ _ _ _ _ _ _ _ _ => 7
  cgGolist := fun _ _ _ _ => 7
  cgArrayWrite := fun _ _ _ _ => 9
  getError := [101, 114, 114]

/-- Checks one trace event: when it is a native zone-write call, its size
array must be `[v, c, b]` and its topology must be `Unstructured`. -/
def zoneWriteCallOk (v c b : Int) : Event → Bool
  | Event.call (NativeCall.nZoneWrite _ _ _ s zt) => decide (s = [v, c, b] ∧ zt = Unstructured)
  | _ => true

/-- C1: the claim says every native call is performed while `CGNS_MUTEX` is
held, in particular by `zone_read`, `coord_info`, `coord_read` and
`elements_read`.  Evaluating those four operations shows each performs its
native call with the lock at depth 0 and never acquires it: the read paths
skip the global lock. -/
theorem c1_read_ops_call_native_without_lock :
    (callsUnderLock 0 (zone_read env0 7 1 1).1 = false
      ∧ Event.lockAcquire ∉ (zone_read env0 7 1 1).1)
    ∧ (callsUnderLock 0 (coord_info env0 7 1 1 1).1 = false
      ∧ Event.lockAcquire ∉ (coord_info env0 7 1 1 1).1)
    ∧ (callsUnderLock 0 (coord_read env0 7 1 1 [88] 1 10).1 = false
      ∧ Event.lockAcquire ∉ (coord_read env0 7 1 1 [88] 1 10).1)
    ∧ (callsUnderLock 0 (elements_read env0 7 1 1 1 true).1 = false
      ∧ Event.lockAcquire ∉ (elements_read env0 7 1 1 1 true).1) := by decide

/-- C2: the claim says the native close runs exactly once per `File` and that
a successful explicit `close()` suppresses the close in `Drop`.  Evaluating
the explicit-close-then-drop path shows `cg_close` is issued twice (the
explicit call succeeded, yet `Drop` unconditionally closes again); the drop
path itself always issues exactly one close and panics when that close
fails. -/
theorem c2_close_then_drop_closes_twice :
    (close env0 7).2 = Panics.value (CgResult.ok ())
    ∧ countCloseCalls (closeThenDrop env0 7) = 2
    ∧ countCloseCalls (dropFile env0 7).1 = 1
    ∧ (dropFile envFail 7).2 = Panics.panic := by decide

/-- C3 counterexample: the claim says the `ErrorValue` construction includes
the query of the native error message and happens while the lock is held.  A
failing `open` returns its `ErrorValue` without any `cg_get_error` call in its
trace, and the query only happens in the `Debug` formatting, whose sole native
call runs at lock depth 0. -/
theorem c3_message_not_fetched_under_lock :
    (openFile envFail [97] Mode.Read).2 = Panics.value (CgResult.err (Error.mk 7))
    ∧ Event.call NativeCall.nGetError ∉ (openFile envFail [97] Mode.Read).1
    ∧ (errorFmt envFail (Error.mk 7)).1 = [Event.call NativeCall.nGetError]
    ∧ callsUnderLock 0 (errorFmt envFail (Error.mk 7)).1 = false := by decide

/-- C4: the claim says reading back a zone written with sizes (10, 4, 0)
yields a 3-element size vector `[10, 4, 0]`.  Under a native environment that
faithfully returns the stored name and sizes, `zone_read` returns a `Vec`
whose backing buffer holds `[10, 4, 0]` but whose length is 0 — the visible
size vector is empty, because `Vec::with_capacity(3)` has length 0 and
`set_len` is never called after the native write. -/
theorem c4_zone_read_size_vector_empty :
    (zone_write env0 7 1 zone1Name 10 4 0).2 = Panics.value (CgResult.ok (Zone.mk 1))
    ∧ (zone_read env0 7 1 1).2
        = Panics.value (CgResult.ok (zone1Name, RustVec.mk [10, 4, 0] 0))
    ∧ RustVec.toList (RustVec.mk ([10, 4, 0] : List Int) 0) = [] := by decide

/-- C6 counterexample: the claim says decoding returns exactly the bytes up to
the first null byte.  On the buffer `[0xFF, 0, 0, …]` the bytes before the
first null are `[0xFF]`, but `to_str().unwrap()` panics on that invalid UTF-8
prefix, so the decoder panics instead of returning `[0xFF]`. -/
theorem c6_invalid_utf8_panics :
    raw_to_string (255 :: 0 :: List.replicate 62 0) = Panics.panic
    ∧ raw_to_string (255 :: 0 :: List.replicate 62 0) ≠ Panics.value [255]
    ∧ firstNulPos (255 :: 0 :: List.replicate 62 0) = some 1 := by decide

/-- When the first null byte of a buffer sits at position `p`, the slice up to
and including it is the prefix of length `p` followed by a null byte, and that
prefix holds no null byte. -/
theorem firstNulPos_take (buf : List UInt8) (p : Nat) (h : firstNulPos buf = some p) :
    buf.take (p + 1) = buf.take p ++ [0] ∧ 0 ∉ buf.take p := by
  induction buf generalizing p with
  | nil => simp [firstNulPos] at h
  | cons b t ih =>
    by_cases hb : b = 0
    · subst hb
      simp [firstNulPos] at h
      subst h
      simp
    · rw [firstNulPos, if_neg hb] at h
      rw [Option.map_eq_some'] at h
      obtain ⟨q, hq, hpq⟩ := h
      obtain ⟨ht, hmem⟩ := ih q hq
      subst hpq
      refine ⟨?_, ?_⟩
      · show (b :: t).take (q + 1 + 1) = (b :: t).take (q + 1) ++ [0]
        simp [List.take_succ_cons, ht]
      · simp [List.take_succ_cons, hmem, Ne.symm hb]

/-- C6 (amended): `raw_to_string` scans for the first null byte, panics when
there is none, and otherwise returns exactly the bytes before it when they are
valid UTF-8, panicking on invalid UTF-8. -/
theorem c6_raw_to_string_refines_model (buf : List UInt8) :
    raw_to_string buf = raw_to_string_model buf := by
  cases h : firstNulPos buf with
  | none => simp [raw_to_string, raw_to_string_model, h]
  | some p =>
    obtain ⟨htake, hmem⟩ := firstNulPos_take buf p h
    have hfb : from_bytes_with_nul (buf.take (p + 1)) = some (buf.take p) := by
      rw [htake, from_bytes_with_nul, if_pos ⟨by simp, by simp [hmem]⟩, List.dropLast_concat]
    simp only [raw_to_string, raw_to_string_model, h, hfb, cstr_to_str]
    cases hv : utf8Valid (buf.take p) with
    | true => simp [hv]
    | false => simp [hv]

/-- C3 (amended): the `ErrorValue` handed to the caller wraps only the integer
status code, captured at the failing call with no query of the native error
message; the diagnostic is fetched by `cg_get_error` only when the error is
`Debug`-formatted, and that query runs without the global lock held. -/
theorem c3_error_code_immediate_message_lazy (env : Env) (path : List UInt8) (m : Mode)
    (e : Error) (h : 0 ∉ path) :
    Event.call NativeCall.nGetError ∉ (openFile env path m).1
    ∧ ((env.cgOpen path (modeToI32 m)).1 ≠ 0 →
        (openFile env path m).2
          = Panics.value (CgResult.err (errorFromCode (env.cgOpen path (modeToI32 m)).1)))
    ∧ (errorFmt env e).1 = [Event.call NativeCall.nGetError]
    ∧ callsUnderLock 0 (errorFmt env e).1 = false := by
  refine ⟨?_, ?_, rfl, rfl⟩
  · simp [openFile, h]
  · intro hst
    simp [openFile, h, errorFromCode, hst]

/-- C7: `open` maps Read, Write and Modify to `CG_MODE_READ`, `CG_MODE_WRITE`
and `CG_MODE_MODIFY`; it acquires the global lock around the native open call
(its trace is acquire, `cg_open`, release, with the call under the lock);
status 0 yields a `File` owning the returned descriptor, and a nonzero status
yields an `ErrorValue` wrapping that code. -/
theorem c7_open_contract (env : Env) (path : List UInt8) (m : Mode)
    (h : 0 ∉ path) :
    modeToI32 Mode.Read = CG_MODE_READ
    ∧ modeToI32 Mode.Write = CG_MODE_WRITE
    ∧ modeToI32 Mode.Modify = CG_MODE_MODIFY
    ∧ (openFile env path m).1
        = [Event.lockAcquire, Event.call (NativeCall.nOpen path (modeToI32 m)),
            Event.lockRelease]
    ∧ callsUnderLock 0 (openFile env path m).1 = true
    ∧ ((env.cgOpen path (modeToI32 m)).1 = 0 →
        (openFile env path m).2
          = Panics.value (CgResult.ok (File.mk (env.cgOpen path (modeToI32 m)).2)))
    ∧ ((env.cgOpen path (modeToI32 m)).1 ≠ 0 →
        (openFile env path m).2
          = Panics.value (CgResult.err (Error.mk (env.cgOpen path (modeToI32 m)).1))) := by
  refine ⟨rfl, rfl, rfl, ?_, ?_, ?_, ?_⟩
  · simp [openFile, h]
  · simp [openFile, h, callsUnderLock]
  · intro hst
    simp [openFile, h, hst]
  · intro hst
    simp [openFile, h, hst]

/-- C8: every native zone-write call in a `zone_write` trace carries the
`Unstructured` topology constant and the size array
`[vertex_size, cell_size, boundary_size]` in that order; and whenever the name
marshals (no embedded null byte), that native call is indeed performed. -/
theorem c8_zone_write_unstructured (env : Env) (fd base : Int) (name : List UInt8)
    (v c b : Int) :
    (zone_write env fd base name v c b).1.all (zoneWriteCallOk v c b) = true
    ∧ (0 ∉ name →
        Event.call (NativeCall.nZoneWrite fd base name [v, c, b] Unstructured)
          ∈ (zone_write env fd base name v c b).1) := by
  by_cases h : 0 ∈ name
  · refine ⟨?_, fun h2 => absurd h h2⟩
    simp [zone_write, h, zoneWriteCallOk]
  · refine ⟨?_, fun _ => ?_⟩
    · simp [zone_write, h, zoneWriteCallOk]
    · simp [zone_write, h]

/-- C9: passing a string with an embedded null byte to any operation taking a
host string — open path, base/zone/coordinate/section/iteration names, array
names, navigation labels — panics in `CString::new(..).unwrap()` before any
native call, so the failure is never reported through the `ErrorValue`
channel. -/
theorem c9_embedded_nul_panics_before_native (env : Env) (s : List UInt8)
    (h : 0 ∈ s) (m : Mode) (fd base zone : Int)
    (cd pd vs cs bs rmin rmax nsteps dt typ sta en nb : Int)
    (idx elems dims : List Int) (n : Nat) :
    ((openFile env s m).2 = Panics.panic ∧ noCalls (openFile env s m).1 = true)
    ∧ ((base_write env fd s cd pd).2 = Panics.panic
        ∧ noCalls (base_write env fd s cd pd).1 = true)
    ∧ ((zone_write env fd base s vs cs bs).2 = Panics.panic
        ∧ noCalls (zone_write env fd base s vs cs bs).1 = true)
    ∧ ((coord_write env fd base zone s).2 = Panics.panic
        ∧ noCalls (coord_write env fd base zone s).1 = true)
    ∧ ((coord_read env fd base zone s rmin rmax).2 = Panics.panic
        ∧ noCalls (coord_read env fd base zone s rmin rmax).1 = true)
    ∧ ((biter_write env fd base s nsteps).2 = Panics.panic
        ∧ noCalls (biter_write env fd base s nsteps).1 = true)
    ∧ ((ziter_write env fd base zone s).2 = Panics.panic
        ∧ noCalls (ziter_write env fd base zone s).1 = true)
    ∧ ((section_write env fd base zone (SectionInfo.mk s typ sta en nb) elems).2 = Panics.panic
        ∧ noCalls (section_write env fd base zone (SectionInfo.mk s typ sta en nb) elems).1
            = true)
    ∧ ((golist env fd base [s] idx).2 = Panics.panic
        ∧ noCalls (golist env fd base [s] idx).1 = true)
    ∧ ((array_write env dt s dims n).2 = Panics.panic
        ∧ noCalls (array_write env dt s dims n).1 = true) := by
  simp [openFile, base_write, zone_write, coord_write, coord_read, biter_write, ziter_write,
    section_write, golist, array_write, noCalls, isCall, h]

/-- C5: `array_write` first checks that the reduced product of the declared
dimensions equals the data length cast to `i32`; on a mismatch it panics with
no native call in its trace, and on a match it performs exactly the native
array-write call, surfacing a nonzero status as an `ErrorValue` wrapping that
status. -/
theorem c5_array_write_contract (env : Env) (dt : Int) (name : List UInt8)
    (dims : List Int) (n : Nat) (q : Int)
    (hname : 0 ∉ name) (hq : reduceProd dims = some q) :
    (q ≠ wrap32 (n : Int) →
      (array_write env dt name dims n).2 = Panics.panic
      ∧ noCalls (array_write env dt name dims n).1 = true)
    ∧ (q = wrap32 (n : Int) →
      (array_write env dt name dims n).1
        = [Event.call (NativeCall.nArrayWrite name dt (wrap32 (dims.length : Int)) dims)]
      ∧ (env.cgArrayWrite name dt (wrap32 (dims.length : Int)) dims ≠ 0 →
          (array_write env dt name dims n).2
            = Panics.value (CgResult.err
                (Error.mk (env.cgArrayWrite name dt (wrap32 (dims.length : Int)) dims))))) := by
  constructor
  · intro hne
    simp [array_write, hname, hq, hne, noCalls, isCall]
  · intro heq
    constructor
    · simp [array_write, hname, hq, heq]
    · intro hst
      simp [array_write, hname, hq, heq, hst]

/-- C10: `array_write` with an empty dimension list panics — the `reduce` of
an empty iterator is `None` and its unwrap fails — before any native call,
whatever the name, data length and element type. -/
theorem c10_empty_dims_panics (env : Env) (dt : Int) (name : List UInt8) (n : Nat) :
    (array_write env dt name [] n).2 = Panics.panic
    ∧ noCalls (array_write env dt name [] n).1 = true := by
  by_cases h : 0 ∈ name <;> simp [array_write, reduceProd, noCalls, isCall, h]

/-- Witness for the C3 theorem at the concrete failing environment. -/
theorem c3_error_code_immediate_message_lazy_witness :
    Event.call NativeCall.nGetError ∉ (openFile envFail [97] Mode.Read).1
    ∧ ((envFail.cgOpen [97] (modeToI32 Mode.Read)).1 ≠ 0 →
        (openFile envFail [97] Mode.Read).2
          = Panics.value (CgResult.err
              (errorFromCode (envFail.cgOpen [97] (modeToI32 Mode.Read)).1)))
    ∧ (errorFmt envFail (Error.mk 7)).1 = [Event.call NativeCall.nGetError]
    ∧ callsUnderLock 0 (errorFmt envFail (Error.mk 7)).1 = false :=
  c3_error_code_immediate_message_lazy envFail [97] Mode.Read (Error.mk 7) (by decide)

/-- Witness for the C7 theorem at a concrete path and environment. -/
theorem c7_open_contract_witness :
    modeToI32 Mode.Read = CG_MODE_READ
    ∧ modeToI32 Mode.Write = CG_MODE_WRITE
    ∧ modeToI32 Mode.Modify = CG_MODE_MODIFY
    ∧ (openFile env0 [97] Mode.Write).1
        = [Event.lockAcquire, Event.call (NativeCall.nOpen [97] (modeToI32 Mode.Write)),
            Event.lockRelease]
    ∧ callsUnderLock 0 (openFile env0 [97] Mode.Write).1 = true
    ∧ ((env0.cgOpen [97] (modeToI32 Mode.Write)).1 = 0 →
        (openFile env0 [97] Mode.Write).2
          = Panics.value (CgResult.ok (File.mk (env0.cgOpen [97] (modeToI32 Mode.Write)).2)))
    ∧ ((env0.cgOpen [97] (modeToI32 Mode.Write)).1 ≠ 0 →
        (openFile env0 [97] Mode.Write).2
          = Panics.value (CgResult.err (Error.mk (env0.cgOpen [97] (modeToI32 Mode.Write)).1))) :=
  c7_open_contract env0 [97] Mode.Write (by decide)

/-- Witness for the C8 theorem at concrete arguments. -/
theorem c8_zone_write_unstructured_witness :
    (zone_write env0 7 1 zone1Name 10 4 0).1.all (zoneWriteCallOk 10 4 0) = true
    ∧ (0 ∉ zone1Name →
        Event.call (NativeCall.nZoneWrite 7 1 zone1Name [10, 4, 0] Unstructured)
          ∈ (zone_write env0 7 1 zone1Name 10 4 0).1) :=
  c8_zone_write_unstructured env0 7 1 zone1Name 10 4 0

/-- Witness for the C9 theorem at a concrete string with an embedded null
byte. -/
theorem c9_embedded_nul_panics_before_native_witness :
    (0 : UInt8) ∈ ([65, 0, 66] : List UInt8)
    ∧ ((openFile env0 [65, 0, 66] Mode.Read).2 = Panics.panic
        ∧ noCalls (openFile env0 [65, 0, 66] Mode.Read).1 = true) :=
  ⟨by decide,
   (c9_embedded_nul_panics_before_native env0 [65, 0, 66] (by decide) Mode.Read 7 1 1
      3 3 10 4 0 1 10 5 2 0 0 0 0 [] [] [] 0).1⟩

/-- Witness for the C5 theorem at concrete matching dimensions and a failing
native status. -/
theorem c5_array_write_contract_witness :
    ((6 : Int) ≠ wrap32 ((6 : Nat) : Int) →
      (array_write envFail 2 [65] [2, 3] 6).2 = Panics.panic
      ∧ noCalls (array_write envFail 2 [65] [2, 3] 6).1 = true)
    ∧ ((6 : Int) = wrap32 ((6 : Nat) : Int) →
      (array_write envFail 2 [65] [2, 3] 6).1
        = [Event.call (NativeCall.nArrayWrite [65] 2
            (wrap32 (([2, 3] : List Int).length : Int)) [2, 3])]
      ∧ (envFail.cgArrayWrite [65] 2 (wrap32 (([2, 3] : List Int).length : Int)) [2, 3] ≠ 0 →
          (array_write envFail 2 [65] [2, 3] 6).2
            = Panics.value (CgResult.err
                (Error.mk (envFail.cgArrayWrite [65] 2
                  (wrap32 (([2, 3] : List Int).length : Int)) [2, 3]))))) :=
  c5_array_write_contract envFail 2 [65] [2, 3] 6 6 (by decide) (by decide)

end Cgns
